import Mathlib

/-!
Verification development for the buy_socks trading-strategy simulator.

The Python sources are shallowly embedded over ℚ (Python floats are treated as
exact rationals) and ℤ (Python ints).  A function that can raise a Python
exception (ZeroDivisionError on `x / 0`, IndexError on an out-of-range list
access) is embedded as an `Option`-valued function, `none` meaning "raises".
Pure log strings (the `operation` descriptions) are dropped from the embedding;
they carry no data that feeds back into any computation.
-/

/-- Python `int(x)` on a float: truncation toward zero. -/
def pyInt (x : ℚ) : ℤ :=
  if 0 ≤ x then ⌊x⌋ else ⌈x⌉

/-- `series.rolling(20).mean()` at index `i`: the mean of the 20 closes ending
at `i`, undefined (`NaN`) before 20 samples exist. -/
def rollingMA20 (closes : List ℚ) (i : ℕ) : Option ℚ :=
  if 19 ≤ i ∧ i < closes.length then
    some (((closes.drop (i - 19)).take 20).sum / 20)
  else none

namespace Strategy

/-!
Embedding of `src/strategy/buy_engine.py` and `src/strategy/sell_engine.py`.
-/

/-- The scan loop of `should_buy` (`for i in range(buy_count, len(buy_levels))`):
the first list argument is the still-unscanned tail of `buy_levels`, `i` the
absolute tier index it starts at.  Returns `none` when Python would raise:
division by a zero `current_price` inside the loop, or an IndexError on
`buy_ratios[i]`. -/
def shouldBuyGo (rate current_price left_cash : ℚ) (buy_ratios : List ℚ) :
    List ℚ → ℕ → Option (Bool × ℤ × ℚ)
  | [], _ => some (false, -1, 0)
  | level :: rest, i =>
    if |level| ≤ rate then
      match buy_ratios[i]? with
      | none => none
      | some r =>
        if current_price = 0 then none
        else if 0 < pyInt (left_cash * r / current_price) then
          some (true, (i : ℤ), left_cash * r)
        else shouldBuyGo rate current_price left_cash buy_ratios rest (i + 1)
    else shouldBuyGo rate current_price left_cash buy_ratios rest (i + 1)

/-- `should_buy` from `src/strategy/buy_engine.py`.  Result components:
(accept, tier index, buy amount); the log string is dropped.
`none` models a raised exception — in particular the unguarded
`(ma20 - current_price) / ma20` raises ZeroDivisionError when `ma20 == 0`. -/
def should_buy (current_price ma20 : ℚ) (buy_count : ℕ)
    (buy_levels buy_ratios : List ℚ) (left_cash : ℚ) : Option (Bool × ℤ × ℚ) :=
  if left_cash < 100 then some (false, -1, 0)
  else if ma20 = 0 then none
  else shouldBuyGo ((ma20 - current_price) / ma20) current_price left_cash
    buy_ratios (buy_levels.drop buy_count) buy_count

/-- `execute_buy` from `src/strategy/buy_engine.py`. -/
structure BuyExecState where
  shares : ℤ
  left_cash : ℚ
  buy_count : ℤ
  sell_count : ℤ
  deriving DecidableEq, Repr

def execute_buy (current_price buy_amount left_cash : ℚ) (shares : ℤ)
    (buy_level_idx buy_count : ℤ) : Option BuyExecState :=
  if current_price = 0 then none
  else
    let new_shares := pyInt (buy_amount / current_price)
    if new_shares ≤ 0 then
      some ⟨shares, left_cash, buy_count, 0⟩
    else
      some ⟨shares + new_shares, left_cash - new_shares * current_price,
        buy_level_idx + 1, 0⟩

/-- Consecutive entries never strictly decrease (`recent[i+1] < recent[i]`
returns `False` in the Python loop). -/
def nonDecB : List ℚ → Bool
  | [] => true
  | [_] => true
  | a :: b :: t => decide (a ≤ b) && nonDecB (b :: t)

/-- `is_ma20_rising` from `src/strategy/sell_engine.py`. -/
def is_ma20_rising (ma20_history : List ℚ) (weeks : ℕ) : Bool :=
  if ma20_history.length < weeks then false
  else nonDecB (ma20_history.drop (ma20_history.length - weeks))

/-- `should_sell` from `src/strategy/sell_engine.py`.  Result components:
(accept, sell shares); the log string is dropped.  `none` models a raised
IndexError on `sell_ratios[sell_count]`. -/
def should_sell (current_price ma20 : ℚ) (sell_count : ℕ) (shares : ℤ)
    (ma20_history sell_thresholds sell_ratios : List ℚ)
    (min_shares : ℤ) : Option (Bool × ℤ) :=
  if shares < min_shares then some (false, 0)
  else if sell_thresholds.length ≤ sell_count then some (false, 0)
  else if is_ma20_rising ma20_history 3 then some (false, 0)
  else
    let threshold := sell_thresholds.getD sell_count 0
    if ma20 * (1 + threshold) ≤ current_price then
      match sell_ratios[sell_count]? with
      | none => none
      | some sell_ratio =>
        let sell_shares : ℤ :=
          if (sell_count : ℤ) = (sell_ratios.length : ℤ) - 1 then shares
          else pyInt (shares * sell_ratio)
        if min_shares ≤ sell_shares then some (true, sell_shares)
        else some (false, 0)
    else some (false, 0)

/-- `execute_sell` from `src/strategy/sell_engine.py`.  The `buy_count` field of
the returned dict is `0` or Python `None`, embedded as `Option ℤ`.  The log
string computes `sell_shares / (shares + sell_shares)`, which raises
ZeroDivisionError when that denominator is zero — embedded as `none`. -/
structure SellExecState where
  shares : ℤ
  left_cash : ℚ
  sell_count : ℤ
  buy_count : Option ℤ
  deriving DecidableEq, Repr

def execute_sell (current_price : ℚ) (sell_shares : ℤ) (left_cash : ℚ)
    (shares : ℤ) (sell_count : ℤ) : Option SellExecState :=
  if sell_shares ≤ 0 then
    some ⟨shares, left_cash, sell_count, some 0⟩
  else
    let new_shares := shares - sell_shares
    if new_shares = 0 then
      some ⟨new_shares, left_cash + sell_shares * current_price,
        sell_count + 1, some 0⟩
    else if shares + sell_shares = 0 then none
    else
      some ⟨new_shares, left_cash + sell_shares * current_price,
        sell_count + 1, none⟩

/-- The module-level buy/sell configuration of
`src/buy_socks_sell_thresholds.py`. -/
def default_buy_levels : List ℚ := [-(4/100), -(8/100), -(13/100), -(19/100), -(26/100)]

def default_buy_ratios : List ℚ := [10/100, 15/100, 20/100, 25/100, 30/100]

end Strategy

namespace Yearly

/-!
The yearly-summary bookkeeping shared verbatim by the three backtest drivers
(`buy_socks_sell_thresholds.py`, `buy_socks_sell_trend.py`,
`buy_socks_sell_outbreak.py`): a dict `year -> {start_asset, end_asset}`
together with `last_year` and `prev_year_end_asset`.  Python dicts keep
insertion order and assignment to an existing key keeps its position; the final
report iterates over `sorted(keys)`, so order never matters for the result.
-/

/-- One `yearly_summary` entry: (year, start_asset, end_asset). -/
abbrev Summary := List (ℤ × ℚ × Option ℚ)

/-- `yearly_summary[y] = {'start_asset': s, 'end_asset': e}` (dict assignment:
replace in place, or append a new key). -/
def setEntry : Summary → ℤ → ℚ × Option ℚ → Summary
  | [], y, v => [(y, v)]
  | (y', v') :: t, y, v =>
    if y' = y then (y, v) :: t else (y', v') :: setEntry t y v

/-- `yearly_summary[y]['end_asset'] = e`. -/
def setEnd : Summary → ℤ → ℚ → Summary
  | [], _, _ => []
  | (y', s, e') :: t, y, e =>
    if y' = y then (y', s, some e) :: t else (y', s, e') :: setEnd t y e

structure Book where
  lastYear : Option ℤ
  prevYearEndAsset : ℚ
  summary : Summary
  deriving DecidableEq, Repr

def Book.init (initialCapital : ℚ) : Book := ⟨none, initialCapital, []⟩

/-- The per-bar update: the `if last_year is None`, `if current_year !=
last_year` and `yearly_summary[current_year]['end_asset'] = total_asset`
blocks, in source order. -/
def Book.update (b : Book) (year : ℤ) (asset : ℚ) : Book :=
  let b1 :=
    match b.lastYear with
    | none =>
      { b with lastYear := some year,
               summary := setEntry b.summary year (b.prevYearEndAsset, none) }
    | some _ => b
  let b2 :=
    match b1.lastYear with
    | none => b1
    | some ly =>
      if year ≠ ly then
        { lastYear := some year, prevYearEndAsset := asset,
          summary := setEntry (setEnd b1.summary ly asset) year (asset, none) }
      else b1
  { b2 with summary := setEnd b2.summary year asset }

/-- Insertion sort of the dict keys (`sorted(yearly_summary.keys())`). -/
def insertSorted (x : ℤ) : List ℤ → List ℤ
  | [] => [x]
  | a :: t => if x ≤ a then x :: a :: t else a :: insertSorted x t

def sortKeys : List ℤ → List ℤ
  | [] => []
  | a :: t => insertSorted a (sortKeys t)

def lookup? (m : Summary) (y : ℤ) : Option (ℚ × Option ℚ) :=
  match m with
  | [] => none
  | (y', v) :: t => if y' = y then some v else lookup? t y

/-- The final `yearly_returns` report of the thresholds/outbreak drivers:
for every year (in sorted order) compute
`pct = (end - start) / start * 100 if start > 0 else 0`.
`end_asset` being Python `None` there would raise a TypeError on
`end - start`; that case is modelled as `none` (it is unreachable because the
loop always sets `end_asset` right after creating an entry). -/
def returnsOf (m : Summary) : Option (List (ℤ × ℚ)) :=
  go (sortKeys (m.map (·.1)))
where
  go : List ℤ → Option (List (ℤ × ℚ))
    | [] => some []
    | y :: t =>
      match lookup? m y with
      | none => go t
      | some (_, none) => none
      | some (s, some e) =>
        match go t with
        | none => none
        | some rest => some ((y, if 0 < s then (e - s) / s * 100 else 0) :: rest)

/-- The final `yearly_returns` report of the trend driver: identical, except
entries whose `end_asset` is `None` are skipped
(`if 'end_asset' in ... and ... is not None`). -/
def returnsOfSkippingNone (m : Summary) : List (ℤ × ℚ) :=
  go (sortKeys (m.map (·.1)))
where
  go : List ℤ → List (ℤ × ℚ)
    | [] => []
    | y :: t =>
      match lookup? m y with
      | none => go t
      | some (_, none) => go t
      | some (s, some e) => (y, if 0 < s then (e - s) / s * 100 else 0) :: go t

end Yearly

namespace Thresholds

/-!
Embedding of `run_backtest` in `src/buy_socks_sell_thresholds.py`.
-/

def INITIAL_CAPITAL : ℚ := 100000

def buy_levels : List ℚ := [-(4/100), -(8/100), -(13/100), -(19/100), -(26/100)]

def buy_ratios : List ℚ := [10/100, 15/100, 20/100, 25/100, 30/100]

def sell_thresholds : List ℚ := [8/100, 12/100, 18/100]

def sell_ratios : List ℚ := [30/100, 30/100, 40/100]

/-- One weekly bar as consumed by the loop: closing price and calendar year of
its date. -/
structure Bar where
  close : ℚ
  year : ℤ
  deriving DecidableEq, Repr

/-- `calculate_ma20` (the lenient fallback): partial mean below 20 samples,
else mean of the last 20. -/
def calculate_ma20 (prices : List ℚ) : ℚ :=
  if prices.length < 20 then
    if prices = [] then 0 else prices.sum / prices.length
  else ((prices.drop (prices.length - 20)).take 20).sum / 20

structure State where
  left_cash : ℚ
  shares : ℤ
  buy_count : ℕ
  sell_count : ℕ
  deriving DecidableEq, Repr

/-- Result of one pass of the weekly loop body: the updated ledger plus which
trades were executed this step (the data content of the `operation` log). -/
structure StepResult where
  st : State
  bought : Option ℤ
  sold : Option ℤ
  deriving DecidableEq, Repr

/-- The buy attempt shared by the `shares == 0` branch and the
re-buy-after-partial-sell branch.  `none` models the ZeroDivisionError of
`int(buy_amount / current_price)` at `current_price == 0`. -/
def tryBuy (s : State) (price ma : ℚ) : Option (State × Option ℤ) :=
  if s.buy_count < buy_levels.length then
    let level := buy_levels.getD s.buy_count 0
    if price ≤ ma * (1 + level) then
      let ratio := buy_ratios.getD s.buy_count 0
      let amount := s.left_cash * ratio
      if price = 0 then none
      else
        let ns := pyInt (amount / price)
        if 0 < ns then
          some (⟨s.left_cash - ns * price, s.shares + ns,
            s.buy_count + 1, s.sell_count⟩, some ns)
        else some (s, none)
    else some (s, none)
  else some (s, none)

/-- The sell attempt of the `shares != 0` branch: returns the updated ledger,
the `sold_all` flag, and the executed sell quantity if any. -/
def trySell (s : State) (price ma : ℚ) : State × Bool × Option ℤ :=
  if s.sell_count < sell_thresholds.length then
    let threshold := sell_thresholds.getD s.sell_count 0
    if ma * (1 + threshold) ≤ price then
      let ratio := sell_ratios.getD s.sell_count 0
      let ss : ℤ :=
        if (s.sell_count : ℤ) = (sell_ratios.length : ℤ) - 1 then s.shares
        else pyInt (s.shares * ratio)
      if 0 < ss then
        let shares' := s.shares - ss
        (⟨s.left_cash + ss * price, shares', s.buy_count, s.sell_count + 1⟩,
          shares' = 0, some ss)
      else (s, false, none)
    else (s, false, none)
  else (s, false, none)

/-- One pass of the `for week_idx in range(len(weekly_data))` body (trading
part), given the effective `ma20` for this step. -/
def step (s : State) (price ma : ℚ) (week : ℕ) : Option StepResult :=
  if week < 21 then some ⟨s, none, none⟩
  else if s.shares = 0 then
    match tryBuy s price ma with
    | none => none
    | some (s', b) => some ⟨s', b, none⟩
  else
    let sellRes := trySell s price ma
    let s1 := sellRes.1
    let sold_all := sellRes.2.1
    let sold := sellRes.2.2
    if sold_all then
      some ⟨⟨s1.left_cash, s1.shares, 0, 0⟩, none, sold⟩
    else if 0 < s1.shares then
      match tryBuy s1 price ma with
      | none => none
      | some (s2, b) => some ⟨s2, b, sold⟩
    else some ⟨s1, none, sold⟩

/-- The full weekly loop: threads the ledger, the growing `price_history`
(used for the lenient ma20 fallback) and the yearly summary.  `cls` is the
full close column (for the rolling indicator), `idx` the 0-based week index. -/
def loop : List Bar → List ℚ → ℕ → State → List ℚ → Yearly.Book →
    Option (State × Yearly.Book)
  | [], _, _, s, _, bk => some (s, bk)
  | bar :: rest, cls, idx, s, hist, bk =>
    let hist' := hist ++ [bar.close]
    let ma := (rollingMA20 cls idx).getD (calculate_ma20 hist')
    match step s bar.close ma (idx + 1) with
    | none => none
    | some r =>
      let asset := r.st.left_cash + r.st.shares * bar.close
      loop rest cls (idx + 1) r.st hist' (bk.update bar.year asset)

/-- `run_backtest` of `src/buy_socks_sell_thresholds.py`.  Returns
`some (total_return, yearly_returns)` — `some (none, [])` when the series is
shorter than 21 bars — and `none` when the Python code would raise. -/
def run_backtest (bars : List Bar) : Option (Option ℚ × List (ℤ × ℚ)) :=
  if bars.length < 21 then some (none, [])
  else
    let closes := bars.map (·.close)
    match loop bars closes 0 ⟨INITIAL_CAPITAL, 0, 0, 0⟩ [] (Yearly.Book.init INITIAL_CAPITAL) with
    | none => none
    | some (s, bk) =>
      let lastClose := (closes.getLast?).getD 0
      let final := s.left_cash + s.shares * lastClose
      match Yearly.returnsOf bk.summary with
      | none => none
      | some yr => some (some ((final / INITIAL_CAPITAL - 1) * 100), yr)

end Thresholds

namespace Trend

/-!
Embedding of `src/buy_socks_sell_trend.py`.

The source imports `INITIAL_CAPITAL_EXPORT` from `ana_stocks`, which does not
define that name (an import-time NameError in the repository); the initial
capital plainly intended — and used by every sibling driver — is 100000, which
is what this embedding uses.  Dates are embedded as integer day ordinals; the
calendar year of a bar is carried as an explicit field.
-/

def INITIAL_CAPITAL : ℚ := 100000

structure WeekBar where
  date : ℤ
  close : ℚ
  year : ℤ
  deriving DecidableEq, Repr

structure DayBar where
  date : ℤ
  high : ℚ
  low : ℚ
  close : ℚ
  deriving DecidableEq, Repr

/-- `detect_trend`: `slope = ma20 - ma20.shift(5)` (`NaN` while either term
is). -/
def slopeAt (closes : List ℚ) (i : ℕ) : Option ℚ :=
  if 5 ≤ i then
    match rollingMA20 closes i, rollingMA20 closes (i - 5) with
    | some a, some b => some (a - b)
    | _, _ => none
  else none

/-- `detect_trend`: `ma_up = slope > 0` (`NaN > 0` is `False`). -/
def maUpAt (closes : List ℚ) (i : ℕ) : Bool :=
  match slopeAt closes i with
  | some s => decide (0 < s)
  | none => false

/-- `detect_trend`: `trend_up = ma_up.rolling(5).sum() == 5`, `NaN` filled with
`False`: true iff `i ≥ 4` and the last five `ma_up` samples are all true. -/
def trendUpAt (closes : List ℚ) (i : ℕ) : Bool :=
  decide (4 ≤ i) && (List.range' (i - 4) 5).all (fun j => maUpAt closes j)

/-- `row['slope'] > 0` with `NaN > 0 == False`. -/
def slopePos : Option ℚ → Bool
  | some v => decide (0 < v)
  | none => false

/-- Everything the loop body reads at week index `i` (0-based):
`current_price`, the previous row's close (`last_weekly_close`; the current
price itself at index 0), the detect_trend columns, the 1-based week number,
the aggregates of this week's daily slice (`max high`, `min low`, last close;
`none` when the slice is empty), and the calendar year. -/
structure Row where
  price : ℚ
  prevClose : ℚ
  ma20 : Option ℚ
  slope : Option ℚ
  trendUp : Bool
  week : ℕ
  daily : Option (ℚ × ℚ × ℚ)
  year : ℤ
  deriving DecidableEq, Repr

/-- The daily bars belonging to week `i`:
`date in (prev week's date, this week's date + 7]` (everything up to
`date + 7` for the first week). -/
def weekSlice (wb : List WeekBar) (db : List DayBar) (i : ℕ) : List DayBar :=
  let bar := wb.getD i ⟨0, 0, 0⟩
  if i = 0 then db.filter (fun d => d.date ≤ bar.date + 7)
  else
    let prev := wb.getD (i - 1) ⟨0, 0, 0⟩
    db.filter (fun d => prev.date < d.date ∧ d.date ≤ bar.date + 7)

def sliceAgg : List DayBar → Option (ℚ × ℚ × ℚ)
  | [] => none
  | d :: t =>
    some (t.foldl (fun a x => max a x.high) d.high,
          t.foldl (fun a x => min a x.low) d.low,
          t.foldl (fun _ x => x.close) d.close)

/-- Build the loop-input rows from the weekly and daily series (the daily
series is discarded when it has fewer than 60 bars, as in the source). -/
def mkRows (wb : List WeekBar) (db : List DayBar) : List Row :=
  let db' := if db.length < 60 then [] else db
  let closes := wb.map (·.close)
  (List.range wb.length).map (fun i =>
    let bar := wb.getD i ⟨0, 0, 0⟩
    { price := bar.close
      prevClose := if i = 0 then bar.close else (wb.getD (i - 1) ⟨0, 0, 0⟩).close
      ma20 := rollingMA20 closes i
      slope := slopeAt closes i
      trendUp := trendUpAt closes i
      week := i + 1
      daily := sliceAgg (weekSlice wb db' i)
      year := bar.year })

structure State where
  cash : ℚ
  shares : ℤ
  buy_count : ℕ
  sell_count : ℕ
  structural_low : Option ℚ
  in_daily_high_broken : Bool
  last_daily_high : Option ℚ
  last_daily_close : Option ℚ
  deriving DecidableEq, Repr

def initState : State :=
  ⟨INITIAL_CAPITAL, 0, 0, 0, none, false, none, none⟩

/-- The daily-structure block of the loop body (break detection, update of
`last_daily_high`/`last_daily_close`, structure re-validation); a no-op when
this week's daily slice is empty. -/
def dailyPhase (s : State) (r : Row) (ma : ℚ) : State :=
  match r.daily with
  | none => s
  | some (hi, lo, dc) =>
    -- high-break detection (uses the previous week's last_daily_high)
    let sA :=
      if 0 < s.shares ∧ s.in_daily_high_broken = false then
        match s.last_daily_high with
        | some ldh =>
          if hi < ldh ∧ r.price < r.prevClose then
            { s with in_daily_high_broken := true, structural_low := some lo }
          else s
        | none => s
      else s
    let sB := { sA with last_daily_high := some hi, last_daily_close := some dc }
    -- structure re-validation, gated on trend weakening / MA deviation
    if 0 < sB.shares ∧ (r.trendUp = false ∨ dc < ma * (92/100)) then
      if sB.in_daily_high_broken then
        if ma < dc ∧ slopePos r.slope = true then
          { sB with
            structural_low := some (match sB.structural_low with
              | none => lo
              | some v => max v lo),
            in_daily_high_broken := false }
        else sB
      else sB
    else sB

/-- The trading block of the loop body (entry / structural exit), evaluated
only from week 25 on.  `none` models the ZeroDivisionError of
`int(cash / current_price)` at `current_price == 0`. -/
def tradePhase (s1 : State) (r : Row) (ma : ℚ) : Option State :=
  if r.week < 25 then some s1
  else if s1.shares = 0 then
    -- entry: pullback to MA inside an established uptrend
    if r.trendUp = true ∧ ma ≤ r.price ∧ r.price ≤ ma * (105/100) then
      if r.price = 0 then none
      else
        let ns := pyInt (s1.cash / r.price)
        if 0 < ns then
          some { cash := s1.cash - ns * r.price, shares := ns,
                 buy_count := s1.buy_count + 1, sell_count := s1.sell_count,
                 structural_low := none, in_daily_high_broken := false,
                 last_daily_high := none, last_daily_close := none }
        else some s1
    else some s1
  else
    -- exit: daily close below the structural low while the high is broken
    let dcEff := match r.daily with
      | some d => d.2.2
      | none => r.price
    match s1.structural_low with
    | some v =>
      if s1.in_daily_high_broken = true ∧ dcEff < v then
        -- `cash = revenue`: the sale proceeds REPLACE the cash balance
        some { cash := s1.shares * dcEff, shares := 0,
               buy_count := s1.buy_count, sell_count := s1.sell_count + 1,
               structural_low := none, in_daily_high_broken := false,
               last_daily_high := none, last_daily_close := none }
      else some s1
    | none => some s1

/-- One pass of the weekly loop body of `run_backtest` in
`src/buy_socks_sell_trend.py`.  `pd.isna(ma20)` short-circuits the whole body
(`continue`). -/
def step (s : State) (r : Row) : Option State :=
  match r.ma20 with
  | none => some s
  | some ma => tradePhase (dailyPhase s r ma) r ma

/-- The state after each week of the loop (index-aligned with the rows;
skipped warmup weeks repeat the previous state). -/
def scan (s : State) : List Row → Option (List State)
  | [] => some []
  | r :: rest =>
    match step s r with
    | none => none
    | some s' => (scan s' rest).map (s' :: ·)

/-- The loop together with the yearly-summary bookkeeping (not updated on
`continue`-skipped warmup weeks; the per-week asset is
`cash + shares * recent_daily_close`). -/
def loop : List Row → State → Yearly.Book → Option (State × Yearly.Book)
  | [], s, bk => some (s, bk)
  | r :: rest, s, bk =>
    match r.ma20 with
    | none => loop rest s bk
    | some _ =>
      match step s r with
      | none => none
      | some s' =>
        let dcEff := match r.daily with
          | some d => d.2.2
          | none => r.price
        let asset := s'.cash + s'.shares * dcEff
        loop rest s' (bk.update r.year asset)

/-- `run_backtest` of `src/buy_socks_sell_trend.py`.  Returns
`some (total_return, yearly_returns)` — `some (none, [])` when the weekly
series is shorter than 25 bars — and `none` when the Python code would raise.
The end-of-series forced sell also replaces `cash` by the sale proceeds. -/
def run_backtest (wb : List WeekBar) (db : List DayBar) :
    Option (Option ℚ × List (ℤ × ℚ)) :=
  if wb.length < 25 then some (none, [])
  else
    match loop (mkRows wb db) initState (Yearly.Book.init INITIAL_CAPITAL) with
    | none => none
    | some (s, bk) =>
      let finalCash :=
        if 0 < s.shares then
          s.shares * ((wb.getLast?).map (·.close)).getD 0
        else s.cash
      some (some ((finalCash / INITIAL_CAPITAL - 1) * 100),
        Yearly.returnsOfSkippingNone bk.summary)

end Trend

namespace Outbreak

/-!
Embedding of `run_backtest` in `src/buy_socks_sell_outbreak.py` (the first,
live `run_backtest` of that file; the dead copy appended after
`if __name__ == "__main__"` is never imported).
-/

def INITIAL_CAPITAL : ℚ := 100000

/-- One weekly bar: closing price and the calendar year of its date
(`none` when `pd.notna(row['date'])` fails). -/
structure Bar where
  close : ℚ
  year : Option ℤ
  deriving DecidableEq, Repr

/-- The `state` dict created on trend start. -/
structure TrendState where
  b1_done : Bool
  b2_done : Bool
  b3_done : Bool
  sell30_done : Bool
  sell60_done : Bool
  b1_price : ℚ
  entry_high : ℚ
  deriving DecidableEq, Repr

/-- `is_trend_start`: `ma20[i] > ma20[i-1] > ma20[i-2]` with `NaN`
comparisons false. -/
def is_trend_start (closes : List ℚ) (i : ℕ) : Bool :=
  decide (2 ≤ i) &&
    (match rollingMA20 closes i, rollingMA20 closes (i - 1),
        rollingMA20 closes (i - 2) with
     | some a, some b, some c => decide (b < a) && decide (c < b)
     | _, _, _ => false)

/-- `is_first_pullback` (the `state`/`'b1_done'` presence checks always pass
for states built by the loop). -/
def is_first_pullback (close : ℚ) (ma20 : Option ℚ) (i : ℕ)
    (s : TrendState) : Bool :=
  decide (1 ≤ i) && s.b1_done && !s.b2_done &&
    (match ma20 with | some m => decide (m < close) | none => false) &&
    decide (close < s.b1_price * (105/100))

/-- `is_new_high`. -/
def is_new_high (close : ℚ) (i : ℕ) (s : TrendState) : Bool :=
  decide (1 ≤ i) && !s.b3_done && decide (s.entry_high < close)

/-- What the loop body reads at index `i`: price, indicator, index, year and
the precomputed `is_trend_start(df, i)`. -/
structure Row where
  price : ℚ
  ma20 : Option ℚ
  idx : ℕ
  year : Option ℤ
  trendStart : Bool
  deriving DecidableEq, Repr

def mkRows (bars : List Bar) : List Row :=
  let closes := bars.map (·.close)
  (List.range bars.length).map (fun i =>
    let bar := bars.getD i ⟨0, none⟩
    { price := bar.close, ma20 := rollingMA20 closes i, idx := i,
      year := bar.year, trendStart := is_trend_start closes i })

/-- The B1/B2/B3 staged-buy `elif` chain.  `none` models the
ZeroDivisionError of `int(buy_amount / current_price)` at price 0. -/
def buyPhase (s : TrendState) (cash : ℚ) (shares : ℤ) (r : Row) :
    Option (TrendState × ℚ × ℤ) :=
  if s.b1_done = false then
    if r.price = 0 then none
    else
      let ns := pyInt (cash * (1/2) / r.price)
      if 0 < ns then
        -- `shares = new_shares`: assignment, not increment, in the source
        some ({ s with
                  b1_done := true
                  b1_price := r.price
                  entry_high := r.price }, cash - ns * r.price, ns)
      else some (s, cash, shares)
  else if s.b2_done = false then
    if is_first_pullback r.price r.ma20 r.idx s then
      if r.price = 0 then none
      else
        let ns := pyInt (cash * (3/10) / r.price)
        if 0 < ns then
          some ({ s with b2_done := true }, cash - ns * r.price, shares + ns)
        else some (s, cash, shares)
    else some (s, cash, shares)
  else if s.b3_done = false then
    if is_new_high r.price r.idx s then
      if r.price = 0 then none
      else
        let ns := pyInt (cash * (2/10) / r.price)
        if 0 < ns then
          some ({ s with b3_done := true, entry_high := r.price },
            cash - ns * r.price, shares + ns)
        else some (s, cash, shares)
    else some (s, cash, shares)
  else some (s, cash, shares)

/-- The +30% / +60% staged sells (an `elif` pair). -/
def sellPhase (s : TrendState) (cash : ℚ) (shares : ℤ) (price : ℚ) :
    TrendState × ℚ × ℤ :=
  if s.b1_price * (13/10) < price ∧ s.sell30_done = false then
    let ss := pyInt (shares * (3/10))
    if 0 < ss then
      ({ s with sell30_done := true, entry_high := price },
        cash + ss * price, shares - ss)
    else (s, cash, shares)
  else if s.b1_price * (16/10) < price ∧ s.sell60_done = false then
    let ss := pyInt (shares * (3/10))
    if 0 < ss then
      ({ s with sell60_done := true }, cash + ss * price, shares - ss)
    else (s, cash, shares)
  else (s, cash, shares)

/-- One pass of the loop body.  Returns the new `(state, cash, shares)` and
whether a below-MA20 liquidation happened (whose log line triggers the
`continue` that skips the yearly-summary update).  The sell block is gated on
`current_state != "空仓"`, i.e. on the state dict having existed at the top of
the iteration. -/
def step (st0 : Option TrendState) (cash0 : ℚ) (shares0 : ℤ) (r : Row) :
    Option (Option TrendState × ℚ × ℤ × Bool) :=
  let stateWasSome := st0.isSome
  let st1 : Option TrendState :=
    match st0 with
    | none =>
      if r.trendStart then some ⟨false, false, false, false, false, 0, r.price⟩
      else none
    | some s => some s
  match st1 with
  | none => some (none, cash0, shares0, false)
  | some s =>
    match buyPhase s cash0 shares0 r with
    | none => none
    | some (s2, cash2, shares2) =>
      if s2.b1_done = true ∧ stateWasSome = true then
        let sold := sellPhase s2 cash2 shares2 r.price
        let s3 := sold.1
        let cash3 := sold.2.1
        let shares3 := sold.2.2
        if (match r.ma20 with
            | some m => decide (r.price < m)
            | none => false) = true ∧ 0 < shares3 then
          some (none, cash3 + shares3 * r.price, 0, true)
        else
          let s4 := if s3.entry_high < r.price then
              { s3 with entry_high := r.price }
            else s3
          some (some s4, cash3, shares3, false)
      else some (some s2, cash2, shares2, false)

/-- The full loop with yearly-summary bookkeeping.  The summary records the
asset value computed at the TOP of the iteration (pre-trade); liquidation
iterations and date-less rows skip the update. -/
def loop : List Row → Option TrendState → ℚ → ℤ → Yearly.Book →
    Option (ℚ × ℤ × Yearly.Book)
  | [], _, cash, shares, bk => some (cash, shares, bk)
  | r :: rest, st, cash, shares, bk =>
    let assetPre := cash + shares * r.price
    match step st cash shares r with
    | none => none
    | some (st', cash', shares', liq) =>
      if liq then loop rest st' cash' shares' bk
      else
        match r.year with
        | none => loop rest st' cash' shares' bk
        | some y => loop rest st' cash' shares' (bk.update y assetPre)

/-- `run_backtest` of `src/buy_socks_sell_outbreak.py`.  NOTE: this function
returns a 3-tuple `(total_return, yearly_returns, {})`, not a pair; on a
series shorter than 21 bars it returns `(None, {}, {})`. -/
def run_backtest (bars : List Bar) :
    Option (Option ℚ × List (ℤ × ℚ) × List (ℤ × ℚ)) :=
  if bars.length < 21 then some (none, [], [])
  else
    match loop (mkRows bars) none INITIAL_CAPITAL 0
        (Yearly.Book.init INITIAL_CAPITAL) with
    | none => none
    | some (cash, shares, bk) =>
      let lastClose := ((bars.getLast?).map (·.close)).getD 0
      let final := cash + shares * lastClose
      match Yearly.returnsOf bk.summary with
      | none => none
      | some yr => some (some ((final / INITIAL_CAPITAL - 1) * 100), yr, [])

end Outbreak


namespace Strategy

/-- Specification-side restatement of "the first tier `i ≥ buyCount` whose
threshold is met AND whose integer share count is positive": scan the
`(tier index, level)` pairs from `buyCount` upward and take the first
feasible one. -/
def firstFeasibleTier (rate current_price left_cash : ℚ)
    (buy_levels buy_ratios : List ℚ) (buy_count : ℕ) : Option (ℕ × ℚ) :=
  ((List.range' buy_count (buy_levels.length - buy_count)).zip
      (buy_levels.drop buy_count)).find?
    (fun p => decide (|p.2| ≤ rate) &&
      decide (0 < pyInt (left_cash * (buy_ratios[p.1]?).getD 0 / current_price)))

end Strategy

/-- Specification-side quantity of a sell (from the claim's words): the floor
of `shares * sellRatios[sellCount]`, except the last configured tier, which
sells all remaining shares. -/
def claimSellQty (shares : ℤ) (sell_ratios : List ℚ) (sell_count : ℕ) : ℤ :=
  if (sell_count : ℤ) = (sell_ratios.length : ℤ) - 1 then shares
  else ⌊(shares : ℚ) * sell_ratios.getD sell_count 0⌋

namespace TrendScenario

/-!
A concrete 34-week series for the trend strategy, with two daily bars per week
(68 ≥ 60, so the daily data is not discarded).  Weekly dates are spaced 100
days apart so each weekly slice captures exactly its own daily bars.

Trajectory: 19 flat weeks at 100, a slow rise to 105 (trend confirmed, entry
at week 29 spending 99960 of the 100000: 952 shares at 105, leftover cash 40),
a crash to 83/82 (daily-high break at week 31, structural_low 70), a spike to
126 (structure re-validated at week 32, structural_low ratcheted to
max(70,75) = 75), a fresh break at week 33 (structural_low overwritten DOWN to
60), and a final collapse to 50 (close below 60: full liquidation, the cash
balance being REPLACED by the proceeds 952·50 = 47600, dropping the leftover
40). -/

def closes : List ℚ :=
  [100, 100, 100, 100, 100, 100, 100, 100, 100, 100,
   100, 100, 100, 100, 100, 100, 100, 100, 100,
   201/2, 101, 203/2, 102, 205/2, 103, 207/2, 104, 209/2, 105,
   83, 82, 126, 100, 50]

/-- (intraweek high, intraweek low, daily close) for each week; the daily
close always equals the weekly close, and low ≤ close ≤ high. -/
def dailySpec : List (ℚ × ℚ × ℚ) :=
  (closes.take 29).map (fun c => (c + 1, c - 1, c)) ++
  [(85, 79, 83), (84, 70, 82), (130, 75, 126), (101, 60, 100), (55, 48, 50)]

def weekBars : List Trend.WeekBar :=
  (List.range closes.length).map (fun i =>
    { date := 100 * (((i : ℕ) + 1 : ℕ) : ℤ), close := closes.getD i 0,
      year := 2024 })

def dayBars : List Trend.DayBar :=
  (List.range closes.length).flatMap (fun i =>
    let v := dailySpec.getD i (0, 0, 0)
    [ { date := 100 * (((i : ℕ) + 1 : ℕ) : ℤ) - 1, high := v.1, low := v.2.1,
        close := v.2.2 },
      { date := 100 * (((i : ℕ) + 1 : ℕ) : ℤ), high := v.1, low := v.2.1,
        close := v.2.2 } ])

def rows : List Trend.Row := Trend.mkRows weekBars dayBars

/-- The per-week states of the run on this series. -/
def trace? : Option (List Trend.State) := Trend.scan Trend.initState rows

end TrendScenario

/-!
## Theorems

`Rat.add`/`Rat.mul`/`Rat.sub`/`Rat.inv` are `@[irreducible]` in Batteries;
they are made semireducible here so that concrete runs of the embedded
programs can be evaluated by `decide` inside proofs.
-/

attribute [local semireducible] Rat.add Rat.mul Rat.sub Rat.inv

set_option maxRecDepth 10000

theorem pyInt_of_nonneg (x : ℚ) (h : 0 ≤ x) : pyInt x = ⌊x⌋ := by
  simp [pyInt, h]

namespace Strategy

theorem shouldBuyGo_eq_firstFeasible (rate current_price left_cash : ℚ)
    (buy_ratios : List ℚ) (hp : current_price ≠ 0) :
    ∀ (tail : List ℚ) (i : ℕ), i + tail.length ≤ buy_ratios.length →
    shouldBuyGo rate current_price left_cash buy_ratios tail i =
      match ((List.range' i tail.length).zip tail).find?
          (fun p => decide (|p.2| ≤ rate) &&
            decide (0 < pyInt (left_cash * (buy_ratios[p.1]?).getD 0 / current_price))) with
      | some p => some (true, (p.1 : ℤ), left_cash * (buy_ratios[p.1]?).getD 0)
      | none => some (false, -1, 0)
  | [], i, _ => by simp only [shouldBuyGo, List.length_nil, List.range'_zero,
      List.zip_nil_right, List.find?_nil]
  | level :: rest, i, h => by
    have hi : i < buy_ratios.length := by
      simp only [List.length_cons] at h; omega
    have hget : buy_ratios[i]? = some ((buy_ratios[i]?).getD 0) := by
      rw [List.getElem?_eq_getElem hi]; rfl
    have hrest := shouldBuyGo_eq_firstFeasible rate current_price left_cash
      buy_ratios hp rest (i + 1) (by simp only [List.length_cons] at h; omega)
    rw [shouldBuyGo, hget]
    simp only [List.length_cons, List.range'_succ, List.zip_cons_cons,
      List.find?_cons]
    by_cases hlev : |level| ≤ rate
    · by_cases hq : 0 < pyInt (left_cash * (buy_ratios[i]?).getD 0 / current_price)
      · rw [if_pos hlev, if_neg hp, if_pos hq]
        simp [hlev, hq]
      · rw [if_pos hlev, if_neg hp, if_neg hq, hrest]
        simp [hlev, hq]
    · rw [if_neg hlev, hrest]
      simp [hlev]

end Strategy

/-- C1: with `ma20 = 0` (and `left_cash ≥ 100`) `should_buy` does NOT decline:
the unguarded division `(ma20 - current_price) / ma20` raises
ZeroDivisionError (embedded as `none`); and with a negative `ma20` it can even
accept a buy instead of declining. -/
theorem should_buy_unguarded_ma20 :
    Strategy.should_buy 5 0 0 Strategy.default_buy_levels
        Strategy.default_buy_ratios 100000 = none ∧
    Strategy.should_buy 5 (-10) 0 Strategy.default_buy_levels
        Strategy.default_buy_ratios 100000 = some (true, 0, 10000) := by
  decide

/-- C3 counterexample: at `current_price = 11`, `ma20 = 100`, `buy_count = 0`,
`left_cash = 100` with the default configuration, tier 0 is the first tier
whose threshold `|−0.04|` is met by the drop rate `0.89`, and its integer
share count `int(100·0.10/11)` is 0 — yet `should_buy` does not decline: it
accepts the LATER tier 1 (amount 15) in the same call. -/
theorem should_buy_zero_share_tier_not_declined :
    |(Strategy.default_buy_levels[0]?).getD 0| ≤ (100 - 11) / 100 ∧
    pyInt ((100 : ℚ) * (10/100) / 11) = 0 ∧
    Strategy.should_buy 11 100 0 Strategy.default_buy_levels
        Strategy.default_buy_ratios 100 = some (true, 1, 15) := by
  decide

/-- C3 (amended): for `left_cash ≥ 100`, `ma20 ≠ 0` and `current_price ≠ 0`,
`should_buy` accepts exactly the first tier `i ≥ buyCount` whose threshold is
met AND whose integer share count is positive (tiers with a zero share count
are skipped and the scan continues); it declines, leaving `buy_count`
unchanged, only when no such tier exists. -/
theorem should_buy_accepts_first_feasible_tier
    (current_price ma20 left_cash : ℚ) (buy_count : ℕ)
    (buy_levels buy_ratios : List ℚ)
    (hcash : 100 ≤ left_cash) (hma : ma20 ≠ 0) (hp : current_price ≠ 0)
    (hlen : buy_levels.length ≤ buy_ratios.length) :
    Strategy.should_buy current_price ma20 buy_count buy_levels buy_ratios left_cash =
      match Strategy.firstFeasibleTier ((ma20 - current_price) / ma20) current_price
          left_cash buy_levels buy_ratios buy_count with
      | some p => some (true, (p.1 : ℤ), left_cash * (buy_ratios[p.1]?).getD 0)
      | none => some (false, -1, 0) := by
  rw [Strategy.should_buy, if_neg (not_lt.mpr hcash), if_neg hma]
  by_cases hbc : buy_levels.length ≤ buy_count
  · have h0 : buy_levels.length - buy_count = 0 := by omega
    rw [Strategy.firstFeasibleTier, h0, List.drop_eq_nil_of_le hbc]
    simp [Strategy.shouldBuyGo]
  · have h := Strategy.shouldBuyGo_eq_firstFeasible
      ((ma20 - current_price) / ma20) current_price left_cash buy_ratios hp
      (buy_levels.drop buy_count) buy_count
      (by rw [List.length_drop]; omega)
    rw [h, Strategy.firstFeasibleTier, List.length_drop]

/-- C3 witness: the amended theorem applied at `price 96`, `ma20 100`,
`cash 100000`, tier 0 of the default configuration. -/
theorem should_buy_accepts_first_feasible_tier_witness :
    (100 : ℚ) ≤ 100000 ∧ (100 : ℚ) ≠ 0 ∧ (96 : ℚ) ≠ 0 ∧
    Strategy.default_buy_levels.length ≤ Strategy.default_buy_ratios.length ∧
    Strategy.should_buy 96 100 0 Strategy.default_buy_levels
        Strategy.default_buy_ratios 100000 =
      match Strategy.firstFeasibleTier ((100 - 96) / 100) 96 100000
          Strategy.default_buy_levels Strategy.default_buy_ratios 0 with
      | some p => some (true, (p.1 : ℤ),
          100000 * (Strategy.default_buy_ratios[p.1]?).getD 0)
      | none => some (false, -1, 0) :=
  ⟨by norm_num, by norm_num, by norm_num, by decide,
    should_buy_accepts_first_feasible_tier 96 100 100000 0
      Strategy.default_buy_levels Strategy.default_buy_ratios
      (by norm_num) (by norm_num) (by norm_num) (by decide)⟩

/-- C4: `should_sell` declines whenever `shares < minShares`, the sell tiers
are exhausted, or the last 3 MA20 observations are non-decreasing; otherwise
it accepts exactly when `currentPrice ≥ ma20·(1+sellThresholds[sellCount])`
and the computed quantity is `≥ minShares`, the quantity being
`⌊shares·sellRatios[sellCount]⌋` for every tier except the last configured
tier, which sells all remaining shares. -/
theorem should_sell_characterization
    (current_price ma20 : ℚ) (sell_count : ℕ) (shares : ℤ)
    (ma20_history sell_thresholds sell_ratios : List ℚ) (min_shares : ℤ)
    (hms : 0 ≤ min_shares) (hr : ∀ r ∈ sell_ratios, 0 ≤ r)
    (hlen : sell_ratios.length = sell_thresholds.length) :
    Strategy.should_sell current_price ma20 sell_count shares ma20_history
        sell_thresholds sell_ratios min_shares =
      some (if min_shares ≤ shares ∧ sell_count < sell_thresholds.length ∧
          ¬(3 ≤ ma20_history.length ∧
            Strategy.nonDecB (ma20_history.drop (ma20_history.length - 3)) = true) ∧
          ma20 * (1 + sell_thresholds.getD sell_count 0) ≤ current_price ∧
          min_shares ≤ claimSellQty shares sell_ratios sell_count
        then (true, claimSellQty shares sell_ratios sell_count)
        else (false, 0)) := by
  rw [Strategy.should_sell]
  by_cases h1 : shares < min_shares
  · rw [if_pos h1]
    simp [not_le.mpr h1]
  rw [if_neg h1]
  by_cases h2 : sell_thresholds.length ≤ sell_count
  · rw [if_pos h2]
    simp [not_lt.mpr h2]
  rw [if_neg h2]
  by_cases h3 : Strategy.is_ma20_rising ma20_history 3 = true
  · rw [if_pos h3]
    rw [Strategy.is_ma20_rising] at h3
    by_cases hl3 : ma20_history.length < 3
    · rw [if_pos hl3] at h3; exact absurd h3 (by simp)
    · rw [if_neg hl3] at h3
      have hcond : (3 ≤ ma20_history.length ∧
          Strategy.nonDecB (ma20_history.drop (ma20_history.length - 3)) = true) :=
        ⟨by omega, h3⟩
      simp [hcond]
  rw [if_neg h3]
  have hsc : sell_count < sell_ratios.length := by omega
  have hrise : ¬(3 ≤ ma20_history.length ∧
      Strategy.nonDecB (ma20_history.drop (ma20_history.length - 3)) = true) := by
    intro hc
    exact h3 (by rw [Strategy.is_ma20_rising, if_neg (by omega)]; exact hc.2)
  have hget : sell_ratios[sell_count]? = some (sell_ratios.getD sell_count 0) := by
    rw [List.getElem?_eq_getElem hsc, List.getD_eq_getElem?_getD,
      List.getElem?_eq_getElem hsc]
    rfl
  have hqty : (if (sell_count : ℤ) = (sell_ratios.length : ℤ) - 1 then shares
      else pyInt ((shares : ℚ) * sell_ratios.getD sell_count 0)) =
      claimSellQty shares sell_ratios sell_count := by
    rw [claimSellQty]
    by_cases hlast : (sell_count : ℤ) = (sell_ratios.length : ℤ) - 1
    · rw [if_pos hlast, if_pos hlast]
    · rw [if_neg hlast, if_neg hlast]
      have hsh : (0 : ℤ) ≤ shares := le_trans hms (not_lt.mp h1)
      have hmem : sell_ratios.getD sell_count 0 ∈ sell_ratios := by
        rw [List.getD_eq_getElem?_getD, List.getElem?_eq_getElem hsc]
        exact List.getElem_mem hsc
      have hrat : (0 : ℚ) ≤ sell_ratios.getD sell_count 0 := hr _ hmem
      exact pyInt_of_nonneg _ (mul_nonneg (by exact_mod_cast hsh) hrat)
  by_cases h4 : ma20 * (1 + sell_thresholds.getD sell_count 0) ≤ current_price
  · rw [if_pos h4, hget]
    simp only [hqty]
    by_cases h5 : min_shares ≤ claimSellQty shares sell_ratios sell_count
    · rw [if_pos h5, if_pos ⟨not_lt.mp h1, by omega, hrise, h4, h5⟩]
    · rw [if_neg h5, if_neg (by intro hc; exact h5 hc.2.2.2.2)]
  · rw [if_neg h4, if_neg (by intro hc; exact h4 hc.2.2.2.1)]

/-- C4 witness: the characterization applied at `price 120`, `ma20 100`,
tier 0 of the module configuration, 1000 shares, falling MA20 history. -/
theorem should_sell_characterization_witness :
    (0 : ℤ) ≤ 100 ∧ (∀ r ∈ [(30:ℚ)/100, 30/100, 40/100], 0 ≤ r) ∧
    Strategy.should_sell 120 100 0 1000 [100, 99, 98]
        [8/100, 12/100, 18/100] [30/100, 30/100, 40/100] 100 =
      some (if (100 : ℤ) ≤ 1000 ∧ 0 < ([(8:ℚ)/100, 12/100, 18/100]).length ∧
          ¬(3 ≤ ([(100:ℚ), 99, 98]).length ∧
            Strategy.nonDecB (([(100:ℚ), 99, 98]).drop (([(100:ℚ), 99, 98]).length - 3)) = true) ∧
          100 * (1 + ([(8:ℚ)/100, 12/100, 18/100]).getD 0 0) ≤ 120 ∧
          (100 : ℤ) ≤ claimSellQty 1000 [30/100, 30/100, 40/100] 0
        then (true, claimSellQty 1000 [30/100, 30/100, 40/100] 0)
        else (false, 0)) :=
  ⟨by decide, by decide,
    should_sell_characterization 120 100 0 1000 [100, 99, 98]
      [8/100, 12/100, 18/100] [30/100, 30/100, 40/100] 100
      (by decide) (by decide) (by decide)⟩

/-- C10: for `sell_shares > 0` (and `shares ≥ 0`), the `buy_count` field of
the dict returned by `execute_sell` is Python `None` unless the sell leaves
exactly 0 shares, in which case — and only in which case — it is 0.  In
particular a partial sell (`0 < sell_shares < shares`) always gets `None`:
the caller's prior `buy_count` is never preserved. -/
theorem execute_sell_partial_buy_count (current_price left_cash : ℚ)
    (shares sell_count sell_shares : ℤ)
    (hpos : 0 < sell_shares) (hsh : 0 ≤ shares) :
    (Strategy.execute_sell current_price sell_shares left_cash shares sell_count).map
        (fun st => st.buy_count) =
      some (if shares - sell_shares = 0 then some 0 else none) := by
  rw [Strategy.execute_sell, if_neg (not_le.mpr hpos)]
  by_cases hz : shares - sell_shares = 0
  · simp [hz]
  · have hnz : shares + sell_shares ≠ 0 := by omega
    simp [hz, hnz]

/-- C10 witness: a concrete partial sell — 50 of 200 shares — whose returned
`buy_count` is `None`. -/
theorem execute_sell_partial_buy_count_witness :
    (0 : ℤ) < 50 ∧ (0 : ℤ) ≤ 200 ∧
    (Strategy.execute_sell 10 50 1000 200 1).map (fun st => st.buy_count) =
      some (if (200 : ℤ) - 50 = 0 then some 0 else none) :=
  ⟨by decide, by decide,
    execute_sell_partial_buy_count 10 1000 200 1 50 (by decide) (by decide)⟩

namespace Trend

theorem dailyPhase_ledger (s : State) (r : Row) (ma : ℚ) :
    (dailyPhase s r ma).cash = s.cash ∧ (dailyPhase s r ma).shares = s.shares ∧
    (dailyPhase s r ma).buy_count = s.buy_count ∧
    (dailyPhase s r ma).sell_count = s.sell_count := by
  rw [dailyPhase]
  rcases r.daily with _ | ⟨hi, lo, dc⟩
  · exact ⟨rfl, rfl, rfl, rfl⟩
  · rcases s.last_daily_high with _ | ldh <;>
      dsimp only <;>
      split_ifs <;>
      exact ⟨rfl, rfl, rfl, rfl⟩

theorem dailyPhase_low_broken (s : State) (r : Row) (ma : ℚ)
    (hb : s.in_daily_high_broken = true) (v : ℚ)
    (hv : s.structural_low = some v) :
    ∃ w, (dailyPhase s r ma).structural_low = some w ∧ v ≤ w := by
  rw [dailyPhase]
  rcases r.daily with _ | ⟨hi, lo, dc⟩
  · exact ⟨v, hv, le_refl v⟩
  · rcases s.last_daily_high with _ | ldh <;>
      dsimp only <;>
      rw [hb] <;>
      simp only [Bool.true_eq_false, and_false, if_false, hv] <;>
      split_ifs <;>
      first
        | exact ⟨v, hv, le_refl v⟩
        | exact ⟨v, rfl, le_refl v⟩
        | exact ⟨max v lo, rfl, le_max_left v lo⟩

theorem tradePhase_low (s1 : State) (r : Row) (ma : ℚ) (t : State)
    (h : tradePhase s1 r ma = some t) :
    t.structural_low = s1.structural_low ∨ t.structural_low = none := by
  rw [tradePhase] at h
  dsimp only at h
  rcases hsl : s1.structural_low with _ | v <;> rw [hsl] at h <;>
    dsimp only at h <;>
    split_ifs at h <;>
    first
      | exact Option.noConfusion h
      | (injection h with h; rw [← h]; simp [hsl])

theorem tradePhase_counts (s1 : State) (r : Row) (ma : ℚ) (t : State)
    (h : tradePhase s1 r ma = some t) :
    s1.buy_count ≤ t.buy_count ∧ s1.sell_count ≤ t.sell_count := by
  rw [tradePhase] at h
  dsimp only at h
  rcases hsl : s1.structural_low with _ | v <;> rw [hsl] at h <;>
    dsimp only at h <;>
    split_ifs at h <;>
    first
      | exact Option.noConfusion h
      | (injection h with h; rw [← h]; refine ⟨?_, ?_⟩ <;> simp)

theorem tradePhase_buy_conditions (s1 : State) (r : Row) (ma : ℚ) (t : State)
    (h : tradePhase s1 r ma = some t) (hb : s1.buy_count < t.buy_count) :
    25 ≤ r.week ∧ s1.shares = 0 ∧ r.trendUp = true ∧
    ma ≤ r.price ∧ r.price ≤ ma * (105/100) := by
  rw [tradePhase] at h
  try dsimp only at h
  by_cases hw : r.week < 25
  · rw [if_pos hw] at h
    injection h with h; rw [← h] at hb; exact absurd hb (lt_irrefl _)
  rw [if_neg hw] at h
  by_cases hsh : s1.shares = 0
  · rw [if_pos hsh] at h
    by_cases hc : r.trendUp = true ∧ ma ≤ r.price ∧ r.price ≤ ma * (105/100)
    · rw [if_pos hc] at h
      by_cases hp0 : r.price = 0
      · rw [if_pos hp0] at h; exact Option.noConfusion h
      · rw [if_neg hp0] at h
        try dsimp only at h
        by_cases hns : 0 < pyInt (s1.cash / r.price)
        · exact ⟨by omega, hsh, hc.1, hc.2.1, hc.2.2⟩
        · rw [if_neg hns] at h
          injection h with h; rw [← h] at hb; exact absurd hb (lt_irrefl _)
    · rw [if_neg hc] at h
      injection h with h; rw [← h] at hb; exact absurd hb (lt_irrefl _)
  · rw [if_neg hsh] at h
    rcases hsl : s1.structural_low with _ | v <;> rw [hsl] at h <;> dsimp only at h
    · injection h with h; rw [← h] at hb; exact absurd hb (lt_irrefl _)
    · split_ifs at h <;>
        (injection h with h; rw [← h] at hb; exact absurd hb (lt_irrefl _))

end Trend

namespace Thresholds

theorem tryBuy_counts (s : State) (price ma : ℚ) (s' : State) (b : Option ℤ)
    (h : tryBuy s price ma = some (s', b)) :
    s.buy_count ≤ s'.buy_count ∧ s'.sell_count = s.sell_count := by
  rw [tryBuy] at h
  dsimp only at h
  split_ifs at h <;>
    (injection h with h; injection h with h1 h2; rw [← h1];
      refine ⟨?_, ?_⟩ <;> simp)

theorem tryBuy_bought (s : State) (price ma : ℚ) (s' : State) (n : ℤ)
    (h : tryBuy s price ma = some (s', some n)) :
    s.buy_count < buy_levels.length ∧
    price ≤ ma * (1 + buy_levels.getD s.buy_count 0) := by
  rw [tryBuy] at h
  dsimp only at h
  split_ifs at h with h1 h2 h3 h4 <;>
    (injection h with h; injection h with ha hb) <;>
    first
      | exact Option.noConfusion hb
      | exact ⟨h1, h2⟩

theorem trySell_counts (s : State) (price ma : ℚ) :
    (trySell s price ma).1.buy_count = s.buy_count ∧
    s.sell_count ≤ (trySell s price ma).1.sell_count := by
  rw [trySell]
  dsimp only
  split_ifs <;> refine ⟨rfl, ?_⟩ <;> simp

theorem trySell_sold_all (s : State) (price ma : ℚ)
    (h : (trySell s price ma).2.1 = true) :
    (trySell s price ma).1.shares = 0 := by
  rw [trySell] at h ⊢
  dsimp only at h ⊢
  split_ifs at h ⊢ <;> simp_all

theorem trySell_sold_conditions (s : State) (price ma : ℚ) (ss : ℤ)
    (h : (trySell s price ma).2.2 = some ss) :
    s.sell_count < sell_thresholds.length ∧
    ma * (1 + sell_thresholds.getD s.sell_count 0) ≤ price := by
  rw [trySell] at h
  dsimp only at h
  split_ifs at h with h1 h2 h3 <;> simp_all

end Thresholds

/-- C6: in the trend strategy a buy is executed at a step only if the position
is empty (`shares = 0`), the step's 1-based week number is ≥ 25, `trend_up`
holds at that step, and the MA20 is defined with
`ma20 ≤ currentPrice ≤ ma20 · 1.05`. -/
theorem trend_entry_requires_pullback_conditions
    (s : Trend.State) (r : Trend.Row) (t : Trend.State)
    (hstep : Trend.step s r = some t) (hbuy : s.buy_count < t.buy_count) :
    25 ≤ r.week ∧ s.shares = 0 ∧ r.trendUp = true ∧ r.ma20.isSome = true ∧
    (r.ma20.getD 0) ≤ r.price ∧ r.price ≤ (r.ma20.getD 0) * (105/100) := by
  rw [Trend.step] at hstep
  rcases hma : r.ma20 with _ | m <;> rw [hma] at hstep <;> dsimp only at hstep
  · injection hstep with h; rw [← h] at hbuy; exact absurd hbuy (lt_irrefl _)
  · have hd := Trend.dailyPhase_ledger s r m
    have h6 := Trend.tradePhase_buy_conditions (Trend.dailyPhase s r m) r m t
      hstep (by omega)
    exact ⟨h6.1, by rw [← hd.2.1]; exact h6.2.1, h6.2.2.1, rfl,
      h6.2.2.2.1, h6.2.2.2.2⟩

/-- C6 witness: a concrete entry — empty position, week 25, `trend_up`, price
on the MA — satisfies every condition of the theorem. -/
theorem trend_entry_requires_pullback_conditions_witness :
    Trend.step Trend.initState
        ⟨100, 100, some 100, some 1, true, 25, none, 2024⟩ =
      some ⟨0, 1000, 1, 0, none, false, none, none⟩ ∧
    Trend.initState.buy_count <
      (⟨0, 1000, 1, 0, none, false, none, none⟩ : Trend.State).buy_count ∧
    (25 ≤ (⟨100, 100, some 100, some 1, true, 25, none, 2024⟩ : Trend.Row).week ∧
      Trend.initState.shares = 0 ∧
      (⟨100, 100, some 100, some 1, true, 25, none, 2024⟩ : Trend.Row).trendUp = true ∧
      (⟨100, 100, some 100, some 1, true, 25, none, 2024⟩ : Trend.Row).ma20.isSome = true ∧
      ((⟨100, 100, some 100, some 1, true, 25, none, 2024⟩ : Trend.Row).ma20.getD 0) ≤
        (⟨100, 100, some 100, some 1, true, 25, none, 2024⟩ : Trend.Row).price ∧
      (⟨100, 100, some 100, some 1, true, 25, none, 2024⟩ : Trend.Row).price ≤
        ((⟨100, 100, some 100, some 1, true, 25, none, 2024⟩ : Trend.Row).ma20.getD 0) * (105/100)) :=
  ⟨by decide, by decide,
    trend_entry_requires_pullback_conditions Trend.initState
      ⟨100, 100, some 100, some 1, true, 25, none, 2024⟩
      ⟨0, 1000, 1, 0, none, false, none, none⟩ (by decide) (by decide)⟩

/-- C7 (amended): while the high-broken flag is set at the start of a step,
the structural low never decreases across that step as long as it stays
defined: frozen steps keep it and re-validation takes `max`.  (A FRESH
high-break in a later step overwrites it and can lower it — see the
counterexample.) -/
theorem structural_low_ratchet_while_broken
    (s : Trend.State) (r : Trend.Row) (t : Trend.State)
    (hstep : Trend.step s r = some t)
    (hbroken : s.in_daily_high_broken = true)
    (v w : ℚ) (hv : s.structural_low = some v) (hw : t.structural_low = some w) :
    v ≤ w := by
  rw [Trend.step] at hstep
  rcases hma : r.ma20 with _ | m <;> rw [hma] at hstep <;> dsimp only at hstep
  · injection hstep with h
    rw [← h] at hw
    rw [hv] at hw
    injection hw with hw
    rw [hw]
  · obtain ⟨w1, hw1, hvw1⟩ := Trend.dailyPhase_low_broken s r m hbroken v hv
    rcases Trend.tradePhase_low (Trend.dailyPhase s r m) r m t hstep with hEq | hNone
    · rw [hEq, hw1] at hw
      injection hw with hw
      rw [← hw]
      exact hvw1
    · rw [hNone] at hw
      exact Option.noConfusion hw

/-- C7 witness: the ratchet theorem applied at a concrete re-validation step
(broken, structural low 70, intraweek low 75): the low moves up to
`max 70 75 = 75`. -/
theorem structural_low_ratchet_while_broken_witness :
    Trend.step ⟨40, 952, 1, 0, some 70, true, some 84, some 82⟩
        ⟨126, 82, some (4037/40), some (1/40), false, 32,
          some (130, 75, 126), 2024⟩ =
      some ⟨40, 952, 1, 0, some 75, false, some 130, some 126⟩ ∧
    (⟨40, 952, 1, 0, some 70, true, some 84, some 82⟩ : Trend.State).in_daily_high_broken = true ∧
    (⟨40, 952, 1, 0, some 70, true, some 84, some 82⟩ : Trend.State).structural_low = some 70 ∧
    (⟨40, 952, 1, 0, some 75, false, some 130, some 126⟩ : Trend.State).structural_low = some 75 ∧
    (70 : ℚ) ≤ 75 :=
  ⟨by decide, by decide, by decide, by decide,
    structural_low_ratchet_while_broken
      ⟨40, 952, 1, 0, some 70, true, some 84, some 82⟩
      ⟨126, 82, some (4037/40), some (1/40), false, 32, some (130, 75, 126), 2024⟩
      ⟨40, 952, 1, 0, some 75, false, some 130, some 126⟩
      (by decide) (by decide) 70 75 (by decide) (by decide)⟩

/-- C7 counterexample: on the concrete `TrendScenario` series, inside a single
holding period (952 shares throughout), `structural_low` is 75 after week 32
(re-validated) and 60 after week 33 (a fresh high-break overwrote it with the
new intraweek low) — it DECREASED while defined at both steps. -/
theorem structural_low_decreases_on_second_break :
    ((TrendScenario.trace?).bind (fun tr => tr[31]?)).map
        (fun st => (st.structural_low, st.shares, st.in_daily_high_broken)) =
      some (some 75, 952, false) ∧
    ((TrendScenario.trace?).bind (fun tr => tr[32]?)).map
        (fun st => (st.structural_low, st.shares, st.in_daily_high_broken)) =
      some (some 60, 952, true) ∧
    ¬ ((75 : ℚ) ≤ 60) := by
  refine ⟨by decide, by decide, by decide⟩

/-- C2: on the concrete `TrendScenario` series the state before the
liquidation week holds cash 40 and 952 shares; the liquidation sells all 952
shares at the week's daily close 50, yet the resulting cash is exactly
47600 = 952·50, NOT 40 + 952·50: the `cash = revenue` assignment discards the
pre-existing cash balance, so the total asset drops by 40 with no
corresponding trade cash flow. -/
theorem trend_liquidation_cash_leak :
    ((TrendScenario.trace?).bind (fun tr => tr[32]?)).map
        (fun st => (st.cash, st.shares)) = some (40, 952) ∧
    (TrendScenario.rows[33]?).map (fun r => r.daily) = some (some (55, 48, 50)) ∧
    ((TrendScenario.trace?).bind (fun tr => tr[33]?)).map
        (fun st => (st.cash, st.shares)) = some (47600, 0) ∧
    (47600 : ℚ) ≠ 40 + 952 * 50 := by
  refine ⟨by decide, by decide, by decide, by decide⟩

/-- C8: in the threshold-strategy weekly loop, whenever either ladder counter
decreases across a step, that step is a full liquidation — the position held
shares before, holds none after, and BOTH counters are reset to 0 together;
and in the trend-strategy loop the counters never decrease at all (no reset
ever happens).  Hence resets occur only when shares transition to exactly 0,
and no executed buy or partial sell resets either counter. -/
theorem ladder_counters_reset_only_on_liquidation :
    (∀ (s : Thresholds.State) (price ma : ℚ) (week : ℕ) (res : Thresholds.StepResult),
        Thresholds.step s price ma week = some res →
        (res.st.buy_count < s.buy_count ∨ res.st.sell_count < s.sell_count) →
        s.shares ≠ 0 ∧ res.st.shares = 0 ∧ res.st.buy_count = 0 ∧
          res.st.sell_count = 0) ∧
    (∀ (s : Trend.State) (r : Trend.Row) (t : Trend.State),
        Trend.step s r = some t →
        s.buy_count ≤ t.buy_count ∧ s.sell_count ≤ t.sell_count) := by
  constructor
  · intro s price ma week res hstep hdec
    rw [Thresholds.step] at hstep
    by_cases hw : week < 21
    · rw [if_pos hw] at hstep
      injection hstep with h; rw [← h] at hdec
      simp at hdec
    rw [if_neg hw] at hstep
    by_cases hsh : s.shares = 0
    · rw [if_pos hsh] at hstep
      rcases htb : Thresholds.tryBuy s price ma with _ | ⟨s', b⟩
      · rw [htb] at hstep; exact Option.noConfusion hstep
      · rw [htb] at hstep
        have hc := Thresholds.tryBuy_counts s price ma s' b htb
        injection hstep with h; rw [← h] at hdec
        simp at hdec
        rcases hdec with h1 | h1
        · omega
        · omega
    · rw [if_neg hsh] at hstep
      dsimp only at hstep
      have hts := Thresholds.trySell_counts s price ma
      by_cases hsa : (Thresholds.trySell s price ma).2.1 = true
      · rw [if_pos hsa] at hstep
        injection hstep with h; rw [← h] at hdec ⊢
        exact ⟨hsh, Thresholds.trySell_sold_all s price ma hsa, rfl, rfl⟩
      · rw [if_neg hsa] at hstep
        by_cases hpos : 0 < (Thresholds.trySell s price ma).1.shares
        · rw [if_pos hpos] at hstep
          rcases htb : Thresholds.tryBuy (Thresholds.trySell s price ma).1 price ma
            with _ | ⟨s2, b⟩
          · rw [htb] at hstep; exact Option.noConfusion hstep
          · rw [htb] at hstep
            have hc := Thresholds.tryBuy_counts _ price ma s2 b htb
            injection hstep with h; rw [← h] at hdec
            simp at hdec
            rcases hdec with h1 | h1
            · omega
            · omega
        · rw [if_neg hpos] at hstep
          injection hstep with h; rw [← h] at hdec
          simp at hdec
          rcases hdec with h1 | h1
          · omega
          · omega
  · intro s r t hstep
    rw [Trend.step] at hstep
    rcases hma : r.ma20 with _ | m <;> rw [hma] at hstep <;> dsimp only at hstep
    · injection hstep with h; rw [← h]; exact ⟨le_refl _, le_refl _⟩
    · have hd := Trend.dailyPhase_ledger s r m
      have hc := Trend.tradePhase_counts _ r m t hstep
      exact ⟨by omega, by omega⟩

/-- C8 witness: a concrete full-liquidation step (last sell tier at week 21,
counters (2,2)): both counters drop to 0 and shares transition 100 → 0. -/
theorem ladder_counters_reset_only_on_liquidation_witness :
    Thresholds.step ⟨1000, 100, 2, 2⟩ 120 100 21 =
      some ⟨⟨13000, 0, 0, 0⟩, none, some 100⟩ ∧
    ((⟨⟨13000, 0, 0, 0⟩, none, some 100⟩ : Thresholds.StepResult).st.buy_count <
        (⟨1000, 100, 2, 2⟩ : Thresholds.State).buy_count ∨
      (⟨⟨13000, 0, 0, 0⟩, none, some 100⟩ : Thresholds.StepResult).st.sell_count <
        (⟨1000, 100, 2, 2⟩ : Thresholds.State).sell_count) ∧
    ((⟨1000, 100, 2, 2⟩ : Thresholds.State).shares ≠ 0 ∧
      (⟨⟨13000, 0, 0, 0⟩, none, some 100⟩ : Thresholds.StepResult).st.shares = 0 ∧
      (⟨⟨13000, 0, 0, 0⟩, none, some 100⟩ : Thresholds.StepResult).st.buy_count = 0 ∧
      (⟨⟨13000, 0, 0, 0⟩, none, some 100⟩ : Thresholds.StepResult).st.sell_count = 0) :=
  ⟨by decide, by decide,
    ladder_counters_reset_only_on_liquidation.1 ⟨1000, 100, 2, 2⟩ 120 100 21
      ⟨⟨13000, 0, 0, 0⟩, none, some 100⟩ (by decide) (by decide)⟩

/-- C9: in the threshold-strategy weekly loop, with a positive effective MA20
no step executes both a sell and a buy: the active sell tier requires
`price ≥ ma·(1+threshold)` with every threshold ≥ 0.08, the active buy tier
requires `price ≤ ma·(1+level)` with every level ≤ −0.04, and these are
mutually exclusive for `ma > 0`. -/
theorem no_sell_and_buy_same_step
    (s : Thresholds.State) (price ma : ℚ) (week : ℕ) (res : Thresholds.StepResult)
    (hstep : Thresholds.step s price ma week = some res) (hma : 0 < ma) :
    ¬ (res.sold.isSome = true ∧ res.bought.isSome = true) := by
  rintro ⟨hsold, hbought⟩
  rw [Thresholds.step] at hstep
  by_cases hw : week < 21
  · rw [if_pos hw] at hstep
    injection hstep with h; rw [← h] at hsold
    simp at hsold
  rw [if_neg hw] at hstep
  by_cases hsh : s.shares = 0
  · rw [if_pos hsh] at hstep
    rcases htb : Thresholds.tryBuy s price ma with _ | ⟨s', b⟩
    · rw [htb] at hstep; exact Option.noConfusion hstep
    · rw [htb] at hstep
      injection hstep with h; rw [← h] at hsold
      simp at hsold
  · rw [if_neg hsh] at hstep
    dsimp only at hstep
    by_cases hsa : (Thresholds.trySell s price ma).2.1 = true
    · rw [if_pos hsa] at hstep
      injection hstep with h; rw [← h] at hbought
      simp at hbought
    · rw [if_neg hsa] at hstep
      by_cases hpos : 0 < (Thresholds.trySell s price ma).1.shares
      · rw [if_pos hpos] at hstep
        rcases htb : Thresholds.tryBuy (Thresholds.trySell s price ma).1 price ma
          with _ | ⟨s2, b⟩
        · rw [htb] at hstep; exact Option.noConfusion hstep
        · rw [htb] at hstep
          injection hstep with h; rw [← h] at hsold hbought
          simp only [Option.isSome_iff_exists] at hsold hbought
          obtain ⟨ss, hss⟩ := hsold
          obtain ⟨n, hn⟩ := hbought
          have hsc := Thresholds.trySell_sold_conditions s price ma ss hss
          rw [hn] at htb
          have hbc := Thresholds.tryBuy_bought _ price ma s2 n htb
          -- numeric contradiction: every sell threshold is ≥ 8/100,
          -- every buy level is ≤ -(4/100)
          have hthr : (8 : ℚ)/100 ≤ Thresholds.sell_thresholds.getD s.sell_count 0 := by
            set k := s.sell_count with hk
            have hk3 : k < Thresholds.sell_thresholds.length := hsc.1
            simp only [Thresholds.sell_thresholds, List.length_cons,
              List.length_nil] at hk3
            interval_cases k <;> decide
          have hlvl : Thresholds.buy_levels.getD
              (Thresholds.trySell s price ma).1.buy_count 0 ≤ -(4/100) := by
            set j := (Thresholds.trySell s price ma).1.buy_count with hj
            have hj5 : j < Thresholds.buy_levels.length := hbc.1
            simp only [Thresholds.buy_levels, List.length_cons,
              List.length_nil] at hj5
            interval_cases j <;> decide
          have hchain : ma * (1 + Thresholds.sell_thresholds.getD s.sell_count 0) ≤
              ma * (1 + Thresholds.buy_levels.getD
                (Thresholds.trySell s price ma).1.buy_count 0) :=
            le_trans hsc.2 hbc.2
          have := (mul_le_mul_left hma).mp hchain
          linarith
      · rw [if_neg hpos] at hstep
        injection hstep with h; rw [← h] at hbought
        simp at hbought

/-- C9 witness: a concrete partial-sell step (tier 0 sell of 300 of 1000
shares at week 21) executes the sell and not a buy. -/
theorem no_sell_and_buy_same_step_witness :
    Thresholds.step ⟨1000, 1000, 2, 0⟩ 120 100 21 =
      some ⟨⟨1000 + 300 * 120, 700, 2, 1⟩, none, some 300⟩ ∧
    (0 : ℚ) < 100 ∧
    ¬ ((⟨⟨1000 + 300 * 120, 700, 2, 1⟩, none, some 300⟩ : Thresholds.StepResult).sold.isSome = true ∧
       (⟨⟨1000 + 300 * 120, 700, 2, 1⟩, none, some 300⟩ : Thresholds.StepResult).bought.isSome = true) :=
  ⟨by decide, by decide,
    no_sell_and_buy_same_step ⟨1000, 1000, 2, 0⟩ 120 100 21
      ⟨⟨1000 + 300 * 120, 700, 2, 1⟩, none, some 300⟩ (by decide) (by decide)⟩

/-- C5 counterexample: on a 1-bar series the outbreak `run_backtest` returns
the 3-TUPLE `(None, {}, {})` — a null return, an empty yearly map, and an
extra empty dict — not the pair `(None, {})` the claim states. -/
theorem outbreak_short_series_returns_triple :
    Outbreak.run_backtest [⟨100, some 2024⟩] = some (none, [], []) ∧
    (Outbreak.run_backtest [⟨100, some 2024⟩]).map (fun t => t.2.2) =
      some ([] : List (ℤ × ℚ)) := by
  refine ⟨by decide, by decide⟩

/-- C5 (amended): on an input series shorter than the strategy's minimum
(21 weekly bars for thresholds/outbreak, 25 for trend), `run_backtest`
returns without raising and without any trade: exactly `(None, {})` for the
threshold and trend strategies, and exactly `(None, {}, {})` — a triple, not
a pair — for the outbreak strategy. -/
theorem short_series_null_return :
    (∀ bars : List Thresholds.Bar, bars.length < 21 →
        Thresholds.run_backtest bars = some (none, [])) ∧
    (∀ (wb : List Trend.WeekBar) (db : List Trend.DayBar), wb.length < 25 →
        Trend.run_backtest wb db = some (none, [])) ∧
    (∀ bars : List Outbreak.Bar, bars.length < 21 →
        Outbreak.run_backtest bars = some (none, [], [])) := by
  refine ⟨?_, ?_, ?_⟩
  · intro bars h
    rw [Thresholds.run_backtest, if_pos h]
  · intro wb db h
    rw [Trend.run_backtest, if_pos h]
  · intro bars h
    rw [Outbreak.run_backtest, if_pos h]

/-- C5 witness: the three guards applied to concrete short series. -/
theorem short_series_null_return_witness :
    ([] : List Thresholds.Bar).length < 21 ∧
    Thresholds.run_backtest [] = some (none, []) ∧
    ([] : List Trend.WeekBar).length < 25 ∧
    Trend.run_backtest [] [] = some (none, []) ∧
    ([(⟨50, some 2023⟩ : Outbreak.Bar)]).length < 21 ∧
    Outbreak.run_backtest [⟨50, some 2023⟩] = some (none, [], []) :=
  ⟨by decide, short_series_null_return.1 [] (by decide),
   by decide, short_series_null_return.2.1 [] [] (by decide),
   by decide, short_series_null_return.2.2 [⟨50, some 2023⟩] (by decide)⟩
